import Mathlib

/-
Verification development for tools/python/google_maps_bookmarks.py
(GoogleMapsConverter): a shallow embedding of the converter's data model
and operations, with theorems checking the natural-language specification.

Modelling conventions:
- Decoded JSON values are modelled by JVal; a JSON number is carried
  together with its Python str() rendering (the converter only ever joins
  or prints coordinate numbers, never computes with them).
- Python exceptions are modelled by the PyErr type and fallible code
  returns Except PyErr.
- Console output relevant to the claims (progress lines, skip notices,
  retry notices, per-row diagnostic traces) is modelled as a List String
  log threaded through the functions.
- The network is modelled as an oracle mapping a request URL and an
  attempt index to the outcome of one urlopen+json.load call.
-/

set_option autoImplicit false
set_option maxRecDepth 10000

namespace GMaps

/-- The whitespace set of Python str.strip (default). -/
def pyIsSpace (c : Char) : Bool :=
  c == ' ' || c == '\t' || c == '\n' || c == '\r' || c == '\x0b' || c == '\x0c'

/-- Python str.strip() with the default whitespace set. -/
def pyStrip (s : String) : String :=
  String.mk (((s.data.dropWhile pyIsSpace).reverse.dropWhile pyIsSpace).reverse)

/-- Python str.startswith. -/
def pyStartsWith (s stem : String) : Bool :=
  stem.data.isPrefixOf s.data

/-- Python str.endswith. -/
def pyEndsWith (s suffix : String) : Bool :=
  suffix.data.isSuffixOf s.data

/-- Python s[:-n] for positive n (the converter only uses n = 1). -/
def pyDropRight (s : String) (n : Nat) : String :=
  String.mk (s.data.take (s.data.length - n))

/-- Worker of pySplit; the fuel dominates the length of the unsplit
remainder, so the zero case is unreachable from pySplit. -/
def pySplitGo (sep : List Char) : Nat → List Char → List Char → List (List Char)
  | 0, _, acc => [acc.reverse]
  | Nat.succ fuel, cs, acc =>
    if sep.isPrefixOf cs then
      acc.reverse :: pySplitGo sep fuel (cs.drop sep.length) []
    else
      match cs with
      | [] => [acc.reverse]
      | c :: rest => pySplitGo sep fuel rest (c :: acc)

/-- Python str.split(sep) for a non-empty separator: split at each
non-overlapping occurrence from the left, keeping empty pieces. -/
def pySplit (s sep : String) : List String :=
  (pySplitGo sep.data (s.data.length + 1) s.data []).map String.mk

/-- A decoded JSON value as produced by json.load / json.loads.  A number
carries the string produced by Python str() on it; that rendering is all
the converter ever uses a coordinate number for. -/
inductive JVal where
  | null
  | bool (b : Bool)
  | str (s : String)
  | num (render : String)
  | arr (elems : List JVal)
  | obj (fields : List (String × JVal))

/-- The Python exception kinds that can arise in the converter. -/
inductive PyErr where
  | urlError
  | keyError (key : String)
  | indexError
  | valueError
  | typeError
  | attributeError
  | jsonDecodeError
  | stopIteration
deriving DecidableEq, Repr

mutual

/-- Python repr() restricted to what the converter can print (string
escaping inside repr is not modelled; the converter never reprs strings
containing quotes). -/
def pyRepr : JVal → String
  | JVal.null => "None"
  | JVal.bool b => if b then "True" else "False"
  | JVal.str s => "\x27" ++ s ++ "\x27"
  | JVal.num r => r
  | JVal.arr elems => "[" ++ String.intercalate ", " (pyReprList elems) ++ "]"
  | JVal.obj fields => "\x7b" ++ String.intercalate ", " (pyReprFields fields) ++ "\x7d"

/-- Helper of pyRepr for arrays. -/
def pyReprList : List JVal → List String
  | [] => []
  | v :: vs => pyRepr v :: pyReprList vs

/-- Helper of pyRepr for objects. -/
def pyReprFields : List (String × JVal) → List String
  | [] => []
  | (k, v) :: fs => ("\x27" ++ k ++ "\x27: " ++ pyRepr v) :: pyReprFields fs

end

/-- Python str() on a decoded JSON value. -/
def pyStr : JVal → String
  | JVal.str s => s
  | v => pyRepr v

/-- Python truthiness of a decoded JSON value (a number is judged by its
rendering: only literal zero renderings are falsy). -/
def pyTruthy : JVal → Bool
  | JVal.null => false
  | JVal.bool b => b
  | JVal.str s => !s.data.isEmpty
  | JVal.num r => !(r == "0" || r == "0.0" || r == "-0.0")
  | JVal.arr elems => !elems.isEmpty
  | JVal.obj fields => !fields.isEmpty

/-- Python dict subscript d[key]: KeyError when the key is absent. -/
def jget (fields : List (String × JVal)) (key : String) : Except PyErr JVal :=
  match fields.lookup key with
  | some v => Except.ok v
  | none => Except.error (PyErr.keyError key)

/-- Python subscript v[key] on an arbitrary decoded value: dict lookup on
objects, TypeError on anything else. -/
def jIndex (v : JVal) (key : String) : Except PyErr JVal :=
  match v with
  | JVal.obj fields => jget fields key
  | _ => Except.error PyErr.typeError

/-- Python list subscript xs[i]: IndexError when out of range. -/
def pyIdx {α : Type} (xs : List α) (i : Nat) : Except PyErr α :=
  match xs.get? i with
  | some a => Except.ok a
  | none => Except.error PyErr.indexError

/-- Python xs[-1] on a list known to be non-empty (str.split always
returns at least one piece). -/
def lastElem (xs : List String) : String := xs.getLastD ""

/-- Name of a Python exception class, used in the modelled traceback. -/
def errName : PyErr → String
  | PyErr.urlError => "URLError"
  | PyErr.keyError k => "KeyError: \x27" ++ k ++ "\x27"
  | PyErr.indexError => "IndexError"
  | PyErr.valueError => "ValueError"
  | PyErr.typeError => "TypeError"
  | PyErr.attributeError => "AttributeError"
  | PyErr.jsonDecodeError => "json.decoder.JSONDecodeError"
  | PyErr.stopIteration => "StopIteration"

/-- Abstract rendering of traceback.format_exc() for an exception: the
converter only ever embeds it in a console message. -/
def pyTraceback (e : PyErr) : String :=
  "Traceback (most recent call last): " ++ errName e

/- ===== datetime.fromisoformat / strftime model (CPython 3.10 grammar) ===== -/

/-- Value of a non-empty all-digit character list. -/
def digitsToNat? (cs : List Char) : Option Nat :=
  if !cs.isEmpty && cs.all Char.isDigit then
    some (cs.foldl (fun a c => a * 10 + (c.toNat - 48)) 0)
  else none

/-- Two-digit field of an ISO timestamp. -/
def twoDigits? (a b : Char) : Option Nat :=
  if a.isDigit && b.isDigit then some ((a.toNat - 48) * 10 + (b.toNat - 48))
  else none

/-- Gregorian leap-year test, as datetime uses. -/
def isLeapYear (y : Nat) : Bool :=
  y % 4 == 0 && (y % 100 != 0 || y % 400 == 0)

/-- Days in a month of the proleptic Gregorian calendar. -/
def daysInMonth (y m : Nat) : Nat :=
  if m == 2 then (if isLeapYear y then 29 else 28)
  else if m == 4 || m == 6 || m == 9 || m == 11 then 30
  else 31

/-- The result of datetime.fromisoformat, restricted to the fields the
converter re-renders (fractional seconds and a timezone offset are parsed
for validity but dropped, exactly as strftime below drops them). -/
structure PyDateTime where
  year : Nat
  month : Nat
  day : Nat
  hour : Nat
  minute : Nat
  second : Nat
deriving DecidableEq, Repr

/-- Parse the 10-character ISO date YYYY-MM-DD with range validation
(MINYEAR is 1; month and day ranges as the datetime constructor checks). -/
def parseIsoDate (cs : List Char) : Option (Nat × Nat × Nat) :=
  match cs with
  | [y1, y2, y3, y4, s1, m1, m2, s2, d1, d2] =>
    if s1 = '-' ∧ s2 = '-' then
      match digitsToNat? [y1, y2, y3, y4], twoDigits? m1 m2, twoDigits? d1 d2 with
      | some y, some m, some d =>
        if 1 ≤ y ∧ 1 ≤ m ∧ m ≤ 12 ∧ 1 ≤ d ∧ d ≤ daysInMonth y m then
          some (y, m, d)
        else none
      | _, _, _ => none
    else none
  | _ => none

/-- Parse HH[:MM[:SS[.fff[fff]]]] with the exact length patterns CPython
accepts, validating ranges; the fractional part is validated and dropped. -/
def parseHMSF (cs : List Char) : Option (Nat × Nat × Nat) :=
  match cs with
  | [h1, h2] => do
    let h ← twoDigits? h1 h2
    if h ≤ 23 then some (h, 0, 0) else none
  | [h1, h2, c1, m1, m2] => do
    if c1 = ':' then
      let h ← twoDigits? h1 h2
      let m ← twoDigits? m1 m2
      if h ≤ 23 ∧ m ≤ 59 then some (h, m, 0) else none
    else none
  | [h1, h2, c1, m1, m2, c2, s1, s2] => do
    if c1 = ':' ∧ c2 = ':' then
      let h ← twoDigits? h1 h2
      let m ← twoDigits? m1 m2
      let s ← twoDigits? s1 s2
      if h ≤ 23 ∧ m ≤ 59 ∧ s ≤ 59 then some (h, m, s) else none
    else none
  | [h1, h2, c1, m1, m2, c2, s1, s2, dot, f1, f2, f3] => do
    if c1 = ':' ∧ c2 = ':' ∧ dot = '.' ∧ [f1, f2, f3].all Char.isDigit then
      let h ← twoDigits? h1 h2
      let m ← twoDigits? m1 m2
      let s ← twoDigits? s1 s2
      if h ≤ 23 ∧ m ≤ 59 ∧ s ≤ 59 then some (h, m, s) else none
    else none
  | [h1, h2, c1, m1, m2, c2, s1, s2, dot, f1, f2, f3, f4, f5, f6] => do
    if c1 = ':' ∧ c2 = ':' ∧ dot = '.' ∧ [f1, f2, f3, f4, f5, f6].all Char.isDigit then
      let h ← twoDigits? h1 h2
      let m ← twoDigits? m1 m2
      let s ← twoDigits? s1 s2
      if h ≤ 23 ∧ m ≤ 59 ∧ s ≤ 59 then some (h, m, s) else none
    else none
  | _ => none

/-- Split a time string at the first sign character, as CPython does to
find an optional UTC-offset suffix. -/
def findSign : List Char → Option (List Char × List Char)
  | [] => none
  | c :: cs =>
    if c = '+' ∨ c = '-' then some ([], cs)
    else
      match findSign cs with
      | some (pre, post) => some (c :: pre, post)
      | none => none

/-- Validate a UTC-offset tail (after the sign): CPython only accepts the
lengths of HH:MM, HH:MM:SS and HH:MM:SS.ffffff. -/
def parseTzTail (cs : List Char) : Option Unit :=
  if cs.length = 5 ∨ cs.length = 8 ∨ cs.length = 15 then
    match parseHMSF cs with
    | some _ => some ()
    | none => none
  else none

/-- The time-of-day part of fromisoformat: clock time, then an optional
signed UTC offset which is validated and dropped. -/
def parseIsoTime (cs : List Char) : Option (Nat × Nat × Nat) :=
  match findSign cs with
  | none => parseHMSF cs
  | some (pre, post) => do
    let hms ← parseHMSF pre
    let _ ← parseTzTail post
    some hms

/-- datetime.fromisoformat (CPython 3.10 grammar): a 10-character
YYYY-MM-DD date, optionally followed by a single separator character and
a time-of-day.  Returns none where CPython raises ValueError. -/
def fromisoformat (s : String) : Option PyDateTime :=
  let cs := s.data
  match parseIsoDate (cs.take 10) with
  | none => none
  | some (y, m, d) =>
    match cs.drop 10 with
    | [] => some ⟨y, m, d, 0, 0, 0⟩
    | _sep :: timeCs =>
      match parseIsoTime timeCs with
      | some (hh, mm, ss) => some ⟨y, m, d, hh, mm, ss⟩
      | none => none

/-- Zero-padded decimal rendering used by strftime. -/
def padZeros (width n : Nat) : String :=
  let s := toString n
  String.mk (List.replicate (width - s.length) '0') ++ s

/-- strftime with the fixed format the converter uses. -/
def strftimeYmdHms (d : PyDateTime) : String :=
  padZeros 4 d.year ++ "-" ++ padZeros 2 d.month ++ "-" ++ padZeros 2 d.day ++ " " ++
    padZeros 2 d.hour ++ ":" ++ padZeros 2 d.minute ++ ":" ++ padZeros 2 d.second

/-- GoogleMapsConverter.convert_timestamp: strip one trailing Z, parse
with fromisoformat, re-render; ValueError when parsing fails. -/
def convert_timestamp (timestamp : String) : Except PyErr String :=
  let t := if pyEndsWith timestamp "Z" then pyDropRight timestamp 1 else timestamp
  match fromisoformat t with
  | some d => Except.ok (strftimeYmdHms d)
  | none => Except.error PyErr.valueError

/- ===== urllib.parse.urlencode model ===== -/

/-- UTF-8 bytes of a character, as byte values. -/
def utf8Bytes (c : Char) : List Nat :=
  let n := c.toNat
  if n < 128 then [n]
  else if n < 2048 then [192 + n / 64, 128 + n % 64]
  else if n < 65536 then [224 + n / 4096, 128 + (n / 64) % 64, 128 + n % 64]
  else [240 + n / 262144, 128 + (n / 4096) % 64, 128 + (n / 64) % 64, 128 + n % 64]

/-- Uppercase hex digit. -/
def hexDigit (n : Nat) : Char :=
  if n < 10 then Char.ofNat (48 + n) else Char.ofNat (55 + n)

/-- quote_plus on one byte: alphanumerics and underscore dot dash tilde
pass through, space becomes a plus, anything else is percent-encoded. -/
def quotePlusByte (b : Nat) : String :=
  if b = 32 then "+"
  else if (48 ≤ b ∧ b ≤ 57) ∨ (65 ≤ b ∧ b ≤ 90) ∨ (97 ≤ b ∧ b ≤ 122) ∨
          b = 95 ∨ b = 46 ∨ b = 45 ∨ b = 126 then
    String.mk [Char.ofNat b]
  else String.mk ['%', hexDigit (b / 16), hexDigit (b % 16)]

/-- urllib.parse.quote_plus of a string (byte-wise over its UTF-8). -/
def quotePlus (s : String) : String :=
  String.join ((s.data.map utf8Bytes).flatten.map quotePlusByte)

/-- urllib.parse.urlencode of an ordered parameter list. -/
def urlencode (params : List (String × String)) : String :=
  String.intercalate "&" (params.map (fun p => quotePlus p.1 ++ "=" ++ quotePlus p.2))

/- ===== GoogleMapsConverter.get_json ===== -/

/-- Literal max_attempts of get_json. -/
def maxAttempts : Nat := 3

/-- Retry notice printed by get_json on a connectivity failure. -/
def retryMsg (retry : Nat) : String :=
  "Couldn\x27t connect to Google Maps. Retrying... (" ++ toString (retry + 1) ++
    "/" ++ toString maxAttempts ++ ")"

/-- One iteration of the get_json retry loop.  fetch models one
urlopen+json.load call: connectivity failure is urlError, a body that is
not JSON is jsonDecodeError (which the loop does not catch), success is
the decoded value.  The first component is the returned value or the
propagated exception, the second the console lines printed.  Falling off
the end of the loop (unreachable from get_json) returns Python None. -/
def getJsonIter (fetch : Nat → Except PyErr JVal) :
    Nat → Nat → Except PyErr JVal × List String
  | 0, _ => (Except.ok JVal.null, [])
  | Nat.succ remaining, retry =>
    match fetch retry with
    | Except.ok v => (Except.ok v, [])
    | Except.error PyErr.urlError =>
      if retry < maxAttempts - 1 then
        let next := getJsonIter fetch remaining (retry + 1)
        (next.1, retryMsg retry :: next.2)
      else (Except.error PyErr.urlError, [retryMsg retry])
    | Except.error e => (Except.error e, [])

/-- GoogleMapsConverter.get_json: up to maxAttempts attempts, retrying
only on connectivity failure, re-raising it after the final attempt. -/
def get_json (fetch : Nat → Except PyErr JVal) : Except PyErr JVal × List String :=
  getJsonIter fetch maxAttempts 0

/- ===== The Place data model and the GeoJSON path ===== -/

/-- The sole domain entity: one saved place.  The converter stores the
name exactly as derived (a decoded JSON value on the GeoJSON path, a CSV
field wrapped as a string on the CSV path). -/
structure Place where
  name : JVal
  description : String
  coordinates : String

/-- One GeoJSON feature: its geometry coordinate array and its
properties object. -/
structure Feature where
  coordinates : List JVal
  properties : List (String × JVal)

/-- A decoded GeoJSON document: its features array. -/
structure GeoDoc where
  features : List Feature

/-- Name derivation on the GeoJSON path, mirroring the Python expression
location.get(name) or location.get(address) or joined coordinates:
each or-operand is kept when truthy, and dict .get yields None when the
key is absent. -/
def derivedName (locFields : List (String × JVal)) (coordinates : List JVal) : JVal :=
  let n0 := (locFields.lookup "name").getD JVal.null
  let n1 := if pyTruthy n0 then n0 else (locFields.lookup "address").getD JVal.null
  if pyTruthy n1 then n1
  else JVal.str (String.intercalate ", " (coordinates.map pyStr))

/-- Description assembly on the GeoJSON path: the address block is
guarded by the key address on properties but reads its value from the
nested location object (the source's own key mismatch, kept verbatim);
then the date block (via convert_timestamp), the Comment block and the
google_maps_url anchor block. -/
def buildDescription (props locFields : List (String × JVal)) : Except PyErr String := do
  let description := ""
  let description ←
    if (props.lookup "address").isSome then do
      let a ← jget locFields "address"
      Except.ok (description ++ ("<b>Address:</b> " ++ pyStr a ++ "<br>"))
    else Except.ok description
  let description ←
    if (props.lookup "date").isSome then
      match (props.lookup "date").getD JVal.null with
      | JVal.str ts => do
        let t ← convert_timestamp ts
        Except.ok (description ++ ("<b>Date bookmarked:</b> " ++ t ++ "<br>"))
      | _ => Except.error PyErr.attributeError
    else Except.ok description
  let description :=
    match props.lookup "Comment" with
    | some c => description ++ ("<b>Comment:</b> " ++ pyStr c ++ "<br>")
    | none => description
  let description :=
    match props.lookup "google_maps_url" with
    | some u =>
      description ++
        ("<b>Google Maps URL:</b> <a href=\"" ++ pyStr u ++ "\">" ++ pyStr u ++ "</a><br>")
    | none => description
  Except.ok description

/-- Processing of one GeoJSON feature into a Place: read location (an
empty dict when absent, AttributeError on .get when it is not a dict),
derive the name, assemble the description, and join the raw coordinate
renderings with a comma. -/
def featurePlace (feature : Feature) : Except PyErr Place := do
  let location := (feature.properties.lookup "location").getD (JVal.obj [])
  let locFields ←
    match location with
    | JVal.obj fs => Except.ok fs
    | _ => Except.error PyErr.attributeError
  let name := derivedName locFields feature.coordinates
  let description ← buildDescription feature.properties locFields
  Except.ok { name := name, description := description,
              coordinates := String.intercalate "," (feature.coordinates.map pyStr) }

/-- GoogleMapsConverter.process_geojson_features: features are processed
in order; any exception aborts the whole pass (there is no per-feature
handler on this path). -/
def process_geojson_features (geojson : GeoDoc) : Except PyErr (List Place) :=
  geojson.features.mapM featurePlace

/- ===== The CSV path ===== -/

/-- URL stem of the map-search branch. -/
def searchUrlBase : String := "https://www.google.com/maps/search/"

/-- URL stem of the map-place branch. -/
def placeUrlBase : String := "https://www.google.com/maps/place/"

/-- Places API details endpoint. -/
def placesApiBase : String := "https://maps.googleapis.com/maps/api/place/details/json?"

/-- The request URL built for a place lookup. -/
def placesRequestUrl (apiKey ftid : String) : String :=
  placesApiBase ++ urlencode [("key", apiKey), ("fields", "geometry"), ("ftid", ftid)]

/-- Progress line printed for each CSV row (the source prefixes a
carriage return and suppresses the newline; only the text matters here). -/
def progressMsg (idx : Nat) (name : String) : String :=
  "\rProgress: " ++ toString (idx + 1) ++ " Parsing " ++ name ++ "..."

/-- Skip notice for an unrecognized URL. -/
def skipUrlMsg (name : String) : String :=
  "Couldn\x27t parse url. Skipping " ++ name

/-- Skip notice when the Places API lookup fails. -/
def skipCoordsMsg (name : String) : String :=
  "Couldn\x27t extract coordinates from Google Maps. Skipping " ++ name

/-- Diagnostic line printed by the per-row handler. -/
def rowFailMsg (name : String) (e : PyErr) : String :=
  "Couldn\x27t parse " ++ name ++ ": " ++ pyTraceback e

/-- Field access on the Places API response:
data[result][geometry][location], then the lng and lat members joined
with a comma after str(). -/
def extractCoordinates (fetched : Except PyErr JVal) : Except PyErr String := do
  let data ← fetched
  let result ← jIndex data "result"
  let geometry ← jIndex result "geometry"
  let location ← jIndex geometry "location"
  let lng ← jIndex location "lng"
  let lat ← jIndex location "lat"
  Except.ok (String.intercalate "," [pyStr lng, pyStr lat])

/-- The body of the per-row try block: the three URL branches.  The
result is the appended Place (some), a skip (none), or an exception that
escapes the try body, paired with the console lines printed inside it.
The inner handler of the place branch catches only URLError and KeyError. -/
def rowTry (net : String → Nat → Except PyErr JVal) (apiKey name description url : String) :
    Except PyErr (Option Place) × List String :=
  if pyStartsWith url searchUrlBase then
    (Except.ok (some
      { name := JVal.str name, description := description,
        coordinates :=
          String.intercalate "," ((pySplit (lastElem (pySplit url "/")) ",").reverse) }), [])
  else if pyStartsWith url placeUrlBase then
    let ftid := lastElem (pySplit url "!1s")
    let fetched := get_json (net (placesRequestUrl apiKey ftid))
    match extractCoordinates fetched.1 with
    | Except.ok coordinates =>
      (Except.ok (some
        { name := JVal.str name, description := description, coordinates := coordinates }),
       fetched.2)
    | Except.error PyErr.urlError => (Except.ok none, fetched.2 ++ [skipCoordsMsg name])
    | Except.error (PyErr.keyError _) => (Except.ok none, fetched.2 ++ [skipCoordsMsg name])
    | Except.error e => (Except.error e, fetched.2)
  else (Except.ok none, [skipUrlMsg name])

/-- Processing of one CSV row.  The three field reads and the progress
print happen before the try block, so an IndexError there propagates; any
exception escaping the try body is caught with a printed traceback and
the row contributes no Place. -/
def processRow (net : String → Nat → Except PyErr JVal) (apiKey : String)
    (idx : Nat) (row : List String) : Except PyErr (Option Place × List String) := do
  let name ← pyIdx row 0
  let description ← pyIdx row 1
  let url ← pyIdx row 2
  let tried := rowTry net apiKey name description url
  match tried.1 with
  | Except.ok op => Except.ok (op, progressMsg idx name :: tried.2)
  | Except.error e =>
    Except.ok (none, progressMsg idx name :: (tried.2 ++ [rowFailMsg name e]))

/-- The row loop of process_csv_features, carrying the enumerate index.
An exception from a row (only the pre-try field reads can raise one)
aborts the whole pass, exactly as in the source. -/
def processRows (net : String → Nat → Except PyErr JVal) (apiKey : String) :
    Nat → List (List String) → Except PyErr (List Place × List String)
  | _, [] => Except.ok ([], [])
  | idx, row :: rest => do
    let (op, lg) ← processRow net apiKey idx row
    let (places, lgs) ← processRows net apiKey (idx + 1) rest
    Except.ok (op.toList ++ places, lg ++ lgs)

/-- GoogleMapsConverter.process_csv_features over the already-split CSV
rows: the first row is discarded as the header (next() on an empty reader
raises StopIteration), the rest are processed in order. -/
def process_csv_features (net : String → Nat → Except PyErr JVal) (apiKey : String)
    (rows : List (List String)) : Except PyErr (List Place × List String) :=
  match rows with
  | [] => Except.error PyErr.stopIteration
  | _header :: rest => processRows net apiKey 0 rest

/- ===== Output writers ===== -/

/-- An ElementTree element: tag, attributes in insertion order, text and
child elements. -/
structure XmlNode where
  tag : String
  attrs : List (String × String) := []
  text : String := ""
  children : List XmlNode := []

/-- Element text must be a string; ElementTree rejects anything else at
serialization time, modelled here as a TypeError when the tree is built. -/
def textOf : JVal → Except PyErr String
  | JVal.str s => Except.ok s
  | _ => Except.error PyErr.typeError

/-- GoogleMapsConverter.write_kml: the built document tree (writing it to
disk and printing the path are outside the model; an error means no
output file is produced). -/
def write_kml (places : List Place) : Except PyErr XmlNode := do
  let placemarks ← places.mapM (fun place => do
    let nameText ← textOf place.name
    Except.ok
      { tag := "Placemark",
        children :=
          [ { tag := "name", text := nameText, children := [] },
            { tag := "description", text := place.description, children := [] },
            { tag := "Point",
              children := [ { tag := "coordinates", text := place.coordinates, children := [] } ] } ] })
  Except.ok { tag := "kml", children := [ { tag := "Document", children := placemarks } ] }

/-- The loop body of write_gpx for one Place: lat is component index 1
and lon component index 0 of the stored coordinate string (IndexError
when the string has fewer than two comma-separated components). -/
def gpxWpt (place : Place) : Except PyErr XmlNode := do
  let lat ← pyIdx (pySplit place.coordinates ",") 1
  let lon ← pyIdx (pySplit place.coordinates ",") 0
  let nameText ← textOf place.name
  Except.ok
    { tag := "wpt", attrs := [("lat", lat), ("lon", lon)],
      children :=
        [ { tag := "name", text := nameText, children := [] },
          { tag := "desc", text := place.description, children := [] } ] }

/-- The wpt-building loop of write_gpx over the place list, in order. -/
def gpxWpts : List Place → Except PyErr (List XmlNode)
  | [] => Except.ok []
  | place :: rest => do
    let w ← gpxWpt place
    let ws ← gpxWpts rest
    Except.ok (w :: ws)

/-- GoogleMapsConverter.write_gpx. -/
def write_gpx (places : List Place) : Except PyErr XmlNode := do
  let wpts ← gpxWpts places
  Except.ok { tag := "gpx",
              attrs := [("version", "1.1"), ("creator", "GoogleMapsConverter")],
              children := wpts }

/- ===== Top-level dispatch ===== -/

/-- GoogleMapsConverter.convert.  The file content, the inferred MIME
type, the JSON decoder (none models a json.JSONDecodeError) and the CSV
reader are inputs of the model; the result is the built output tree
(some) when one is written, none when the output format matches neither
writer, and an exception when the conversion aborts — in which case no
output file is produced. -/
def convert (content : String) (mime : Option String)
    (jsonParse : String → Option GeoDoc) (csvRows : String → List (List String))
    (net : String → Nat → Except PyErr JVal) (apiKey : String)
    (output_format : String) : Except PyErr (Option XmlNode) := do
  let stripped := pyStrip content
  if stripped = "" then Except.error PyErr.valueError
  else do
    let places ←
      if mime = some "application/geo+json" ∨ mime = some "application/json" then
        match jsonParse stripped with
        | none => Except.error PyErr.valueError
        | some geojson => process_geojson_features geojson
      else if mime = some "text/csv" then do
        let r ← process_csv_features net apiKey (csvRows stripped)
        Except.ok r.1
      else Except.error PyErr.valueError
    if output_format = "kml" then do
      let tree ← write_kml places
      Except.ok (some tree)
    else if output_format = "gpx" then do
      let tree ← write_gpx places
      Except.ok (some tree)
    else Except.ok none

/- ===== Shared helper lemmas ===== -/

/-- Appending the empty string on the left is definitional. -/
theorem strEmptyAppend (s : String) : "" ++ s = s := rfl

/-- Appending the empty string on the right. -/
theorem strAppendEmpty (s : String) : s ++ "" = s := by
  cases s with
  | mk cs =>
    show String.mk (cs ++ []) = String.mk cs
    rw [List.append_nil]

/-- The retry loop only ever consults the fetch oracle on the attempt
indices of its remaining iterations. -/
theorem getJsonIter_congr (o o' : Nat → Except PyErr JVal) :
    ∀ fuel retry, (∀ k, retry ≤ k → k < retry + fuel → o k = o' k) →
    getJsonIter o fuel retry = getJsonIter o' fuel retry := by
  intro fuel
  induction fuel with
  | zero => intro retry _; rfl
  | succ n ih =>
    intro retry h
    have hr : o retry = o' retry := h retry le_rfl (by omega)
    simp only [getJsonIter]
    rw [hr]
    cases o' retry with
    | ok v => rfl
    | error e =>
      cases e with
      | urlError =>
        by_cases hc : retry < maxAttempts - 1
        · have ih' := ih (retry + 1) (fun k h1 h2 => h k (by omega) (by omega))
          simp only [if_pos hc, ih']
        · simp only [if_neg hc]
      | keyError k => rfl
      | indexError => rfl
      | valueError => rfl
      | typeError => rfl
      | attributeError => rfl
      | jsonDecodeError => rfl
      | stopIteration => rfl

/-- get_json depends only on the first maxAttempts oracle answers. -/
theorem get_json_congr (o o' : Nat → Except PyErr JVal)
    (h : ∀ k, k < maxAttempts → o k = o' k) : get_json o = get_json o' :=
  getJsonIter_congr o o' maxAttempts 0
    (fun k _ h2 => h k (by rw [Nat.zero_add] at h2; exact h2))

/-- When every attempt fails with a connectivity error, get_json prints
the three retry notices and re-raises the connectivity error. -/
theorem get_json_allFail (o : Nat → Except PyErr JVal)
    (h : ∀ k, k < maxAttempts → o k = Except.error PyErr.urlError) :
    get_json o = (Except.error PyErr.urlError, [retryMsg 0, retryMsg 1, retryMsg 2]) := by
  have hc := get_json_congr o (fun _ => Except.error PyErr.urlError) (fun k hk => h k hk)
  rw [hc]; rfl

/-- A row with at least three fields always yields a normal result from
processRow: every exception arising past the field reads is caught. -/
theorem processRow_ok_of_len3 (net : String → Nat → Except PyErr JVal) (apiKey : String)
    (idx : Nat) (row : List String) (h : 3 ≤ row.length) :
    ∃ op lg, processRow net apiKey idx row = Except.ok (op, lg) := by
  rcases row with _ | ⟨a, _ | ⟨b, _ | ⟨c, r⟩⟩⟩
  · exact absurd h (by simp)
  · exact absurd h (by simp)
  · exact absurd h (by simp)
  · cases hr : (rowTry net apiKey a b c).1 with
    | ok op =>
      refine ⟨op, progressMsg idx a :: (rowTry net apiKey a b c).2, ?_⟩
      simp [processRow, Bind.bind, Except.bind, pyIdx, hr]
    | error e =>
      refine ⟨none, progressMsg idx a :: ((rowTry net apiKey a b c).2 ++ [rowFailMsg a e]), ?_⟩
      simp [processRow, Bind.bind, Except.bind, pyIdx, hr]

/- ===== Claim theorems ===== -/

/-- Claim C4: for every CSV row whose URL begins with the map-search
stem, the resolved coordinate string is the last slash-separated segment
of the URL, comma-split, order-reversed and comma-rejoined; with exactly
two components (lat,lng) the result is the lon,lat string; the Eiffel
Tower row resolves to 2.2945,48.8584. -/
theorem c4_search_url_resolution :
    (∀ (net : String → Nat → Except PyErr JVal) (apiKey name description url : String),
      pyStartsWith url searchUrlBase = true →
      rowTry net apiKey name description url =
        (Except.ok (some
          { name := JVal.str name, description := description,
            coordinates :=
              String.intercalate "," ((pySplit (lastElem (pySplit url "/")) ",").reverse) }),
         [])) ∧
    (∀ (net : String → Nat → Except PyErr JVal) (apiKey name description url t0 t1 : String),
      pyStartsWith url searchUrlBase = true →
      pySplit (lastElem (pySplit url "/")) "," = [t0, t1] →
      rowTry net apiKey name description url =
        (Except.ok (some
          { name := JVal.str name, description := description,
            coordinates := t1 ++ "," ++ t0 }), [])) ∧
    process_csv_features (fun _ _ => Except.error PyErr.urlError) "key"
        [["name", "description", "url"],
         ["Eiffel Tower", "A landmark", "https://www.google.com/maps/search/48.8584,2.2945"]] =
      Except.ok ([{ name := JVal.str "Eiffel Tower", description := "A landmark",
                    coordinates := "2.2945,48.8584" }],
                 [progressMsg 0 "Eiffel Tower"]) := by
  refine ⟨?_, ?_, rfl⟩
  · intro net apiKey name description url hs
    simp [rowTry, hs]
  · intro net apiKey name description url t0 t1 hs hsplit
    simp [rowTry, hs, hsplit]
    rfl

/-- Witness for C4 at the Eiffel Tower URL of the claim. -/
theorem c4_search_url_resolution_witness :
    rowTry (fun _ _ => Except.error PyErr.urlError) "key" "Eiffel Tower" "A landmark"
        "https://www.google.com/maps/search/48.8584,2.2945" =
      (Except.ok (some
        { name := JVal.str "Eiffel Tower", description := "A landmark",
          coordinates := "2.2945,48.8584" }), []) :=
  c4_search_url_resolution.2.1 (fun _ _ => Except.error PyErr.urlError) "key"
    "Eiffel Tower" "A landmark" "https://www.google.com/maps/search/48.8584,2.2945"
    "48.8584" "2.2945" (by rfl) (by rfl)

/-- Claim C5: convert_timestamp strips one trailing Z if present, parses
the remainder with fromisoformat and re-renders it zero-padded; the two
example inputs both normalize to 2023-05-01 10:00:00, and a remainder
that does not parse raises ValueError. -/
theorem c5_timestamp_normalization :
    convert_timestamp "2023-05-01T10:00:00Z" = Except.ok "2023-05-01 10:00:00" ∧
    convert_timestamp "2023-05-01T10:00:00" = Except.ok "2023-05-01 10:00:00" ∧
    (∀ ts : String,
      fromisoformat (if pyEndsWith ts "Z" then pyDropRight ts 1 else ts) = none →
      convert_timestamp ts = Except.error PyErr.valueError) ∧
    (∀ (ts : String) (d : PyDateTime),
      fromisoformat (if pyEndsWith ts "Z" then pyDropRight ts 1 else ts) = some d →
      convert_timestamp ts = Except.ok (strftimeYmdHms d)) := by
  refine ⟨rfl, rfl, ?_, ?_⟩
  · intro ts h
    simp only [convert_timestamp, h]
  · intro ts d h
    simp only [convert_timestamp, h]

/-- Witness for C5: a non-date remainder raises ValueError. -/
theorem c5_timestamp_normalization_witness :
    convert_timestamp "garbage" = Except.error PyErr.valueError :=
  c5_timestamp_normalization.2.2.1 "garbage" (by rfl)

/-- Claim C9: blank content, or an inferred content type that is neither
JSON/GeoJSON nor CSV, makes convert raise ValueError — for every JSON
decoder and CSV reader, hence before any parsing — and an erroring
convert builds no output tree, so no output file is produced. -/
theorem c9_unsupported_or_blank_fails :
    (∀ (content : String) (mime : Option String)
        (jsonParse : String → Option GeoDoc) (csvRows : String → List (List String))
        (net : String → Nat → Except PyErr JVal) (apiKey output_format : String),
      pyStrip content = "" →
      convert content mime jsonParse csvRows net apiKey output_format =
        Except.error PyErr.valueError) ∧
    (∀ (content : String) (mime : Option String)
        (jsonParse : String → Option GeoDoc) (csvRows : String → List (List String))
        (net : String → Nat → Except PyErr JVal) (apiKey output_format : String),
      mime ≠ some "application/geo+json" → mime ≠ some "application/json" →
      mime ≠ some "text/csv" →
      convert content mime jsonParse csvRows net apiKey output_format =
        Except.error PyErr.valueError) := by
  constructor
  · intro content mime jsonParse csvRows net apiKey output_format h
    simp [convert, h]
  · intro content mime jsonParse csvRows net apiKey output_format h1 h2 h3
    by_cases hb : pyStrip content = ""
    · simp [convert, hb]
    · simp [convert, Bind.bind, Except.bind, hb, h1, h2, h3]

/-- Witness for C9: an unsupported content type and a blank file. -/
theorem c9_unsupported_or_blank_fails_witness :
    convert "hello" (some "text/plain") (fun _ => none) (fun _ => [])
        (fun _ _ => Except.error PyErr.urlError) "k" "gpx" =
      Except.error PyErr.valueError ∧
    convert "   " none (fun _ => none) (fun _ => [])
        (fun _ _ => Except.error PyErr.urlError) "k" "kml" =
      Except.error PyErr.valueError :=
  ⟨c9_unsupported_or_blank_fails.2 "hello" (some "text/plain") (fun _ => none) (fun _ => [])
      (fun _ _ => Except.error PyErr.urlError) "k" "gpx"
      (by simp) (by simp) (by simp),
   c9_unsupported_or_blank_fails.1 "   " none (fun _ => none) (fun _ => [])
      (fun _ _ => Except.error PyErr.urlError) "k" "kml" (by rfl)⟩

/-- A GeoJSON feature whose properties carry the key address while its
location object does not: the address block's guard and its value source
disagree in the code. -/
def mismatchFeature : Feature :=
  { coordinates := [JVal.num "1.0", JVal.num "2.0"],
    properties := [("address", JVal.str "somewhere"),
                   ("location", JVal.obj [("name", JVal.str "Bad")])] }

/-- A fully well-formed GeoJSON feature. -/
def wellFormedFeature : Feature :=
  { coordinates := [JVal.num "2.2945", JVal.num "48.8584"],
    properties := [("location", JVal.obj [("name", JVal.str "Eiffel")])] }

/-- A document where every feature but one is well-formed. -/
def mismatchDoc : GeoDoc := { features := [wellFormedFeature, mismatchFeature] }

/-- Claim C10: a feature whose properties contain the key address while
its location object lacks it makes description assembly raise an uncaught
KeyError, aborting the whole conversion with no output tree, although the
other feature of the document is well-formed. -/
theorem c10_address_key_mismatch_aborts :
    featurePlace wellFormedFeature =
      Except.ok { name := JVal.str "Eiffel", description := "",
                  coordinates := "2.2945,48.8584" } ∧
    process_geojson_features mismatchDoc = Except.error (PyErr.keyError "address") ∧
    convert "x" (some "application/json") (fun _ => some mismatchDoc) (fun _ => [])
        (fun _ _ => Except.error PyErr.urlError) "k" "gpx" =
      Except.error (PyErr.keyError "address") :=
  ⟨rfl, rfl, rfl⟩

/-- Counterexample input for C1: the second data row has a single field,
so its field reads raise IndexError before the per-row try block. -/
theorem c1_short_row_aborts_conversion :
    process_csv_features (fun _ _ => Except.error PyErr.urlError) "k"
        [["name", "description", "url"], ["lonely"],
         ["Eiffel Tower", "A landmark", "https://www.google.com/maps/search/48.8584,2.2945"]] =
      Except.error PyErr.indexError := rfl

/-- Claim C1 (amended): every failure raised inside the per-row try
block, i.e. after the three field reads, is caught with a printed
diagnostic trace, the row contributes no Place, and processing continues;
rows with at least three fields therefore never abort the pass.  (A row
with fewer than three fields aborts it, as the counterexample shows.) -/
theorem c1_failures_inside_try_are_caught :
    (∀ (net : String → Nat → Except PyErr JVal) (apiKey : String) (idx : Nat)
        (name description url : String) (e : PyErr),
      (rowTry net apiKey name description url).1 = Except.error e →
      processRow net apiKey idx [name, description, url] =
        Except.ok (none, progressMsg idx name ::
          ((rowTry net apiKey name description url).2 ++ [rowFailMsg name e]))) ∧
    (∀ (net : String → Nat → Except PyErr JVal) (apiKey : String) (idx : Nat)
        (row : List String) (rest : List (List String)),
      3 ≤ row.length →
      ∃ op lg, processRow net apiKey idx row = Except.ok (op, lg) ∧
        processRows net apiKey idx (row :: rest) =
          (processRows net apiKey (idx + 1) rest).map
            (fun r => (op.toList ++ r.1, lg ++ r.2))) ∧
    (∀ (net : String → Nat → Except PyErr JVal) (apiKey : String) (idx : Nat)
        (rows : List (List String)),
      (∀ row ∈ rows, 3 ≤ row.length) →
      ∃ out, processRows net apiKey idx rows = Except.ok out) := by
  refine ⟨?_, ?_, ?_⟩
  · intro net apiKey idx name description url e h
    simp [processRow, Bind.bind, Except.bind, pyIdx, h]
  · intro net apiKey idx row rest h
    obtain ⟨op, lg, hrow⟩ := processRow_ok_of_len3 net apiKey idx row h
    refine ⟨op, lg, hrow, ?_⟩
    cases hrest : processRows net apiKey (idx + 1) rest with
    | ok pr => simp [processRows, Bind.bind, Except.bind, hrow, hrest, Except.map]
    | error e => simp [processRows, Bind.bind, Except.bind, hrow, hrest, Except.map]
  · intro net apiKey idx rows
    induction rows generalizing idx with
    | nil => intro _; exact ⟨([], []), rfl⟩
    | cons row rest ih =>
      intro h
      obtain ⟨op, lg, hrow⟩ := processRow_ok_of_len3 net apiKey idx row (h row (by simp))
      obtain ⟨out, hout⟩ := ih (idx + 1) (fun r hr => h r (by simp [hr]))
      exact ⟨(op.toList ++ out.1, lg ++ out.2),
        by simp [processRows, Bind.bind, Except.bind, hrow, hout]⟩

/-- Witness for C1 (amended): a decode failure from the Places API body
escapes the inner handler, is caught by the per-row handler with a
printed trace, and the row yields no Place. -/
theorem c1_failures_inside_try_are_caught_witness :
    processRow (fun _ _ => Except.error PyErr.jsonDecodeError) "k" 0
        ["n", "d", "https://www.google.com/maps/place/x!1sF"] =
      Except.ok (none, [progressMsg 0 "n", rowFailMsg "n" PyErr.jsonDecodeError]) :=
  c1_failures_inside_try_are_caught.1 (fun _ _ => Except.error PyErr.jsonDecodeError) "k" 0
    "n" "d" "https://www.google.com/maps/place/x!1sF" PyErr.jsonDecodeError (by rfl)

/-- Counterexample input for C2: a search URL whose tail is not a
coordinate pair is stored verbatim as the coordinates string, which has
a single comma-separated component rather than two. -/
theorem c2_search_url_tail_stored_verbatim :
    process_csv_features (fun _ _ => Except.error PyErr.urlError) "k"
        [["h1", "h2", "h3"], ["n", "d", "https://www.google.com/maps/search/foo"]] =
      Except.ok ([{ name := JVal.str "n", description := "d", coordinates := "foo" }],
                 [progressMsg 0 "n"]) ∧
    (pySplit "foo" ",").length = 1 := ⟨rfl, rfl⟩

/-- Claim C2 (amended): a CSV row whose coordinates cannot be resolved is
dropped with no Place appended (unrecognized URL, or a Places lookup
failing with a connectivity or key error), never stored with a
placeholder; and wherever the code builds a coordinate string from two
components it is the comma-join of exactly those two: a two-component
search-URL tail yields the reversed pair, a successful Places lookup
joins the lng and lat renderings, and a two-element GeoJSON geometry
joins its two renderings. -/
theorem c2_coordinate_pair_shape :
    (∀ (net : String → Nat → Except PyErr JVal) (apiKey name description url : String),
      pyStartsWith url searchUrlBase = false → pyStartsWith url placeUrlBase = false →
      rowTry net apiKey name description url = (Except.ok none, [skipUrlMsg name])) ∧
    (∀ (net : String → Nat → Except PyErr JVal) (apiKey name description url : String),
      pyStartsWith url searchUrlBase = false → pyStartsWith url placeUrlBase = true →
      (extractCoordinates
          (get_json (net (placesRequestUrl apiKey (lastElem (pySplit url "!1s"))))).1 =
            Except.error PyErr.urlError ∨
        ∃ k, extractCoordinates
          (get_json (net (placesRequestUrl apiKey (lastElem (pySplit url "!1s"))))).1 =
            Except.error (PyErr.keyError k)) →
      rowTry net apiKey name description url =
        (Except.ok none,
         (get_json (net (placesRequestUrl apiKey (lastElem (pySplit url "!1s"))))).2 ++
           [skipCoordsMsg name])) ∧
    (∀ (data : Except PyErr JVal) (c : String),
      extractCoordinates data = Except.ok c →
      ∃ lng lat : JVal, c = pyStr lng ++ "," ++ pyStr lat) ∧
    (∀ (feature : Feature) (p : Place) (c0 c1 : JVal),
      feature.coordinates = [c0, c1] → featurePlace feature = Except.ok p →
      p.coordinates = pyStr c0 ++ "," ++ pyStr c1) := by
  refine ⟨?_, ?_, ?_, ?_⟩
  · intro net apiKey name description url h1 h2
    simp [rowTry, h1, h2]
  · intro net apiKey name description url h1 h2 h3
    rcases h3 with h | ⟨k, h⟩ <;> simp [rowTry, h1, h2, h]
  · intro data c h
    cases data with
    | error e => simp [extractCoordinates, Bind.bind, Except.bind] at h
    | ok v =>
      cases h1 : jIndex v "result" with
      | error e => simp [extractCoordinates, Bind.bind, Except.bind, h1] at h
      | ok r =>
        cases h2 : jIndex r "geometry" with
        | error e => simp [extractCoordinates, Bind.bind, Except.bind, h1, h2] at h
        | ok g =>
          cases h3 : jIndex g "location" with
          | error e => simp [extractCoordinates, Bind.bind, Except.bind, h1, h2, h3] at h
          | ok loc =>
            cases h4 : jIndex loc "lng" with
            | error e =>
              simp [extractCoordinates, Bind.bind, Except.bind, h1, h2, h3, h4] at h
            | ok lng =>
              cases h5 : jIndex loc "lat" with
              | error e =>
                simp [extractCoordinates, Bind.bind, Except.bind, h1, h2, h3, h4, h5] at h
              | ok lat =>
                refine ⟨lng, lat, ?_⟩
                simp [extractCoordinates, Bind.bind, Except.bind, h1, h2, h3, h4, h5] at h
                rw [← h]; rfl
  · intro feature p c0 c1 hc hp
    cases hloc : (feature.properties.lookup "location").getD (JVal.obj []) with
    | obj fs =>
      cases hb : buildDescription feature.properties fs with
      | ok d =>
        simp [featurePlace, Bind.bind, Except.bind, hloc, hb] at hp
        subst hp
        rw [hc]
        rfl
      | error e => simp [featurePlace, Bind.bind, Except.bind, hloc, hb] at hp
    | null => simp [featurePlace, Bind.bind, Except.bind, hloc] at hp
    | bool b => simp [featurePlace, Bind.bind, Except.bind, hloc] at hp
    | str s => simp [featurePlace, Bind.bind, Except.bind, hloc] at hp
    | num r => simp [featurePlace, Bind.bind, Except.bind, hloc] at hp
    | arr es => simp [featurePlace, Bind.bind, Except.bind, hloc] at hp

/-- Witness for C2 (amended): an unrecognized URL is dropped. -/
theorem c2_coordinate_pair_shape_witness :
    rowTry (fun _ _ => Except.error PyErr.urlError) "k" "n" "d" "mailto:someone" =
      (Except.ok none, [skipUrlMsg "n"]) :=
  c2_coordinate_pair_shape.1 (fun _ _ => Except.error PyErr.urlError) "k" "n" "d"
    "mailto:someone" (by rfl) (by rfl)

/-- Counterexample feature for C3: location.name is present but empty. -/
def emptyNameFeature : Feature :=
  { coordinates := [JVal.num "33.0", JVal.num "44.0"],
    properties :=
      [("location", JVal.obj [("name", JVal.str ""), ("address", JVal.str "addr")])] }

/-- Counterexample for C3: a present-but-empty location.name is skipped
by the or-chain (Python truthiness), so the derived name is the address
although location.name is present. -/
theorem c3_empty_name_falls_through :
    ([("name", JVal.str ""), ("address", JVal.str "addr")].lookup "name" =
      some (JVal.str "")) ∧
    featurePlace emptyNameFeature =
      Except.ok { name := JVal.str "addr", description := "",
                  coordinates := "33.0,44.0" } ∧
    ("addr" : String) ≠ "" :=
  ⟨rfl, rfl, by decide⟩

/-- Claim C3 (amended): the derived name is location.name when present
and truthy, else location.address when present and truthy, else the
coordinate renderings joined with a comma and space in original (lon,lat)
order; and the name stored in the built Place is exactly this derived
name. -/
theorem c3_name_precedence_truthy :
    (∀ (locFields : List (String × JVal)) (coords : List JVal) (v : JVal),
      locFields.lookup "name" = some v → pyTruthy v = true →
      derivedName locFields coords = v) ∧
    (∀ (locFields : List (String × JVal)) (coords : List JVal) (v : JVal),
      pyTruthy ((locFields.lookup "name").getD JVal.null) = false →
      locFields.lookup "address" = some v → pyTruthy v = true →
      derivedName locFields coords = v) ∧
    (∀ (locFields : List (String × JVal)) (coords : List JVal),
      pyTruthy ((locFields.lookup "name").getD JVal.null) = false →
      pyTruthy ((locFields.lookup "address").getD JVal.null) = false →
      derivedName locFields coords =
        JVal.str (String.intercalate ", " (coords.map pyStr))) ∧
    (∀ (feature : Feature) (locFields : List (String × JVal)) (p : Place),
      (feature.properties.lookup "location").getD (JVal.obj []) = JVal.obj locFields →
      featurePlace feature = Except.ok p →
      p.name = derivedName locFields feature.coordinates) := by
  refine ⟨?_, ?_, ?_, ?_⟩
  · intro locFields coords v h1 h2
    simp [derivedName, h1, h2]
  · intro locFields coords v h1 h2 h3
    simp [derivedName, h1, h2, h3]
  · intro locFields coords h1 h2
    simp [derivedName, h1, h2]
  · intro feature locFields p hloc hp
    cases hb : buildDescription feature.properties locFields with
    | ok d =>
      simp [featurePlace, Bind.bind, Except.bind, hloc, hb] at hp
      subst hp
      rfl
    | error e => simp [featurePlace, Bind.bind, Except.bind, hloc, hb] at hp

/-- Witness for C3 (amended): an empty name falls through to the
address. -/
theorem c3_name_precedence_truthy_witness :
    derivedName [("name", JVal.str ""), ("address", JVal.str "Rue")] [] =
      JVal.str "Rue" :=
  c3_name_precedence_truthy.2.1 [("name", JVal.str ""), ("address", JVal.str "Rue")] []
    (JVal.str "Rue") (by rfl) (by rfl) (by rfl)

/-- Claim C6: get_json consults at most the first three oracle answers,
re-raises the connectivity error after the third failed attempt (after
printing the three retry notices), and a CSV place-URL row whose lookup
fails this way is skipped with no Place appended while every following
row is still processed. -/
theorem c6_retry_policy_and_row_skip :
    (∀ o o' : Nat → Except PyErr JVal,
      (∀ k, k < maxAttempts → o k = o' k) → get_json o = get_json o') ∧
    (∀ o : Nat → Except PyErr JVal,
      (∀ k, k < maxAttempts → o k = Except.error PyErr.urlError) →
      get_json o = (Except.error PyErr.urlError, [retryMsg 0, retryMsg 1, retryMsg 2])) ∧
    (∀ (net : String → Nat → Except PyErr JVal) (apiKey : String) (idx : Nat)
        (name description url : String) (rest : List (List String)),
      pyStartsWith url searchUrlBase = false →
      pyStartsWith url placeUrlBase = true →
      (∀ k, net (placesRequestUrl apiKey (lastElem (pySplit url "!1s"))) k =
        Except.error PyErr.urlError) →
      processRows net apiKey idx ([name, description, url] :: rest) =
        (processRows net apiKey (idx + 1) rest).map
          (fun r => (r.1,
            (progressMsg idx name ::
              ([retryMsg 0, retryMsg 1, retryMsg 2] ++ [skipCoordsMsg name])) ++ r.2))) := by
  refine ⟨get_json_congr, get_json_allFail, ?_⟩
  intro net apiKey idx name description url rest hs hp hnet
  have hfetch := get_json_allFail _ (fun k _ => hnet k)
  cases hrest : processRows net apiKey (idx + 1) rest with
  | ok pr =>
    simp [processRows, processRow, Bind.bind, Except.bind, pyIdx, rowTry, hs, hp,
      hfetch, hrest, Except.map, extractCoordinates]
  | error e =>
    simp [processRows, processRow, Bind.bind, Except.bind, pyIdx, rowTry, hs, hp,
      hfetch, hrest, Except.map, extractCoordinates]

/-- Witness for C6: with an always-failing oracle the place row is
skipped after three attempts and the following row is still processed. -/
theorem c6_retry_policy_and_row_skip_witness :
    get_json (fun _ => Except.error PyErr.urlError) =
      (Except.error PyErr.urlError, [retryMsg 0, retryMsg 1, retryMsg 2]) ∧
    processRows (fun _ _ => Except.error PyErr.urlError) "k" 0
        [["n", "d", "https://www.google.com/maps/place/x!1sF"], ["n2", "d2", "u2"]] =
      Except.ok ([], [progressMsg 0 "n", retryMsg 0, retryMsg 1, retryMsg 2,
                      skipCoordsMsg "n", progressMsg 1 "n2", skipUrlMsg "n2"]) := by
  constructor
  · exact c6_retry_policy_and_row_skip.2.1 (fun _ => Except.error PyErr.urlError)
      (fun _ _ => rfl)
  · have h := c6_retry_policy_and_row_skip.2.2 (fun _ _ => Except.error PyErr.urlError)
      "k" 0 "n" "d" "https://www.google.com/maps/place/x!1sF" [["n2", "d2", "u2"]]
      (by rfl) (by rfl) (fun k => rfl)
    rw [h]; rfl

/-- The address block of the C7 statement: guarded by the key address on
properties, its value read from the location object. -/
def addressBlock (props locFields : List (String × JVal)) : String :=
  if (props.lookup "address").isSome then
    "<b>Address:</b> " ++ pyStr ((locFields.lookup "address").getD JVal.null) ++ "<br>"
  else ""

/-- The date block of the C7 statement. -/
def dateBlock (props : List (String × JVal)) : String :=
  match props.lookup "date" with
  | some (JVal.str ts) =>
    match convert_timestamp ts with
    | Except.ok t => "<b>Date bookmarked:</b> " ++ t ++ "<br>"
    | Except.error _ => ""
  | _ => ""

/-- The comment block of the C7 statement. -/
def commentBlock (props : List (String × JVal)) : String :=
  match props.lookup "Comment" with
  | some c => "<b>Comment:</b> " ++ pyStr c ++ "<br>"
  | none => ""

/-- The anchor block of the C7 statement. -/
def urlBlock (props : List (String × JVal)) : String :=
  match props.lookup "google_maps_url" with
  | some u =>
    "<b>Google Maps URL:</b> <a href=\"" ++ pyStr u ++ "\">" ++ pyStr u ++ "</a><br>"
  | none => ""

/-- Claim C7: the description is the concatenation, in fixed order, of
the present blocks — the address block guarded by the properties key
address but valued from location.address, then the reformatted date
block, the comment block and the anchor block — and it is the empty
string when none of the four keys is present. -/
theorem c7_description_blocks :
    (∀ props locFields : List (String × JVal),
      ((props.lookup "address").isSome → (locFields.lookup "address").isSome) →
      (∀ dv, props.lookup "date" = some dv →
        ∃ ts t, dv = JVal.str ts ∧ convert_timestamp ts = Except.ok t) →
      buildDescription props locFields =
        Except.ok (((addressBlock props locFields ++ dateBlock props) ++
          commentBlock props) ++ urlBlock props)) ∧
    (∀ props locFields : List (String × JVal),
      props.lookup "address" = none → props.lookup "date" = none →
      props.lookup "Comment" = none → props.lookup "google_maps_url" = none →
      buildDescription props locFields = Except.ok "") := by
  constructor
  · intro props locFields ha hd
    cases hA : props.lookup "address" with
    | none =>
      cases hD : props.lookup "date" with
      | none =>
        cases hC : props.lookup "Comment" <;> cases hU : props.lookup "google_maps_url" <;>
          simp [buildDescription, Bind.bind, Except.bind, jget, addressBlock, dateBlock,
            commentBlock, urlBlock, hA, hD, hC, hU, strAppendEmpty, strEmptyAppend]
      | some dv =>
        obtain ⟨ts, t, hts, hct⟩ := hd dv hD
        subst hts
        cases hC : props.lookup "Comment" <;> cases hU : props.lookup "google_maps_url" <;>
          simp [buildDescription, Bind.bind, Except.bind, jget, addressBlock, dateBlock,
            commentBlock, urlBlock, hA, hD, hC, hU, hct, strAppendEmpty, strEmptyAppend]
    | some pa =>
      obtain ⟨a, hA2⟩ := Option.isSome_iff_exists.mp (ha (by rw [hA]; rfl))
      cases hD : props.lookup "date" with
      | none =>
        cases hC : props.lookup "Comment" <;> cases hU : props.lookup "google_maps_url" <;>
          simp [buildDescription, Bind.bind, Except.bind, jget, addressBlock, dateBlock,
            commentBlock, urlBlock, hA, hD, hC, hU, hA2, strAppendEmpty, strEmptyAppend]
      | some dv =>
        obtain ⟨ts, t, hts, hct⟩ := hd dv hD
        subst hts
        cases hC : props.lookup "Comment" <;> cases hU : props.lookup "google_maps_url" <;>
          simp [buildDescription, Bind.bind, Except.bind, jget, addressBlock, dateBlock,
            commentBlock, urlBlock, hA, hD, hC, hU, hA2, hct, strAppendEmpty, strEmptyAppend]
  · intro props locFields hA hD hC hU
    simp [buildDescription, Bind.bind, Except.bind, hA, hD, hC, hU]

/-- Witness for C7 at a properties object with none of the four keys. -/
theorem c7_description_blocks_witness :
    buildDescription [("other", JVal.str "x")] [] = Except.ok "" :=
  c7_description_blocks.2 [("other", JVal.str "x")] [] rfl rfl rfl rfl

/-- The wpt element write_gpx builds for a Place whose coordinates have
at least two components and whose name is a string. -/
def wptOf (place : Place) : XmlNode :=
  { tag := "wpt",
    attrs := [("lat", (pySplit place.coordinates ",").getD 1 ""),
              ("lon", (pySplit place.coordinates ",").getD 0 "")],
    text := "",
    children :=
      [ { tag := "name",
          text := match place.name with | JVal.str s => s | _ => "",
          attrs := [], children := [] },
        { tag := "desc", text := place.description, attrs := [], children := [] } ] }

/-- Claim C8: the GPX writer builds a root gpx element with version 1.1
and creator GoogleMapsConverter, one wpt child per Place in list order,
lat from component index 1 and lon from component index 0 of the stored
coordinate string, with nested name and desc text children. -/
theorem c8_gpx_structure (places : List Place)
    (h : ∀ p ∈ places,
      2 ≤ (pySplit p.coordinates ",").length ∧ ∃ s, p.name = JVal.str s) :
    write_gpx places =
      Except.ok { tag := "gpx",
                  attrs := [("version", "1.1"), ("creator", "GoogleMapsConverter")],
                  text := "", children := places.map wptOf } := by
  have hmap : ∀ ps : List Place,
      (∀ p ∈ ps, 2 ≤ (pySplit p.coordinates ",").length ∧ ∃ s, p.name = JVal.str s) →
      gpxWpts ps = Except.ok (ps.map wptOf) := by
    intro ps
    induction ps with
    | nil => intro _; rfl
    | cons p ps ih =>
      intro hps
      obtain ⟨hlen, s, hs⟩ := hps p (by simp)
      have hone : gpxWpt p = Except.ok (wptOf p) := by
        rcases hxs : pySplit p.coordinates "," with _ | ⟨x, _ | ⟨y, r⟩⟩
        · rw [hxs] at hlen; exact absurd hlen (by simp)
        · rw [hxs] at hlen; exact absurd hlen (by simp)
        · simp [gpxWpt, wptOf, Bind.bind, Except.bind, pyIdx, hxs, hs, textOf]
      have ih' := ih (fun q hq => hps q (by simp [hq]))
      simp [gpxWpts, Bind.bind, Except.bind, hone, ih']
  simp [write_gpx, Bind.bind, Except.bind, hmap places h]

/-- Witness for C8 at the claim's concrete Place. -/
theorem c8_gpx_structure_witness :
    write_gpx [{ name := JVal.str "A", description := "", coordinates := "2.0,48.0" }] =
      Except.ok { tag := "gpx",
                  attrs := [("version", "1.1"), ("creator", "GoogleMapsConverter")],
                  text := "",
                  children :=
                    [ { tag := "wpt", attrs := [("lat", "48.0"), ("lon", "2.0")],
                        text := "",
                        children :=
                          [ { tag := "name", text := "A", attrs := [], children := [] },
                            { tag := "desc", text := "", attrs := [], children := [] } ] } ] } := by
  have h := c8_gpx_structure
    [{ name := JVal.str "A", description := "", coordinates := "2.0,48.0" }]
    (by
      intro p hp
      rw [List.mem_singleton] at hp
      subst hp
      exact ⟨by decide, "A", rfl⟩)
  rw [h]
  rfl

end GMaps
